import Mathlib

/-!
A shallow embedding of the streaming orchestrator of this repository
(src/lib/streamer.ts) together with theorems checking its specification.

Conventions of the embedding:
* byte buffers are `List Nat` with entries below 256 (Node `Buffer` bytes);
* JS `number` durations and timestamps are `ℚ` respectively `Nat`
  milliseconds (the code only ever adds, compares and subtracts
  monotone `Date.now()` values, so truncated `Nat` subtraction agrees
  with the JS arithmetic in every reachable case);
* the mutable module state, the set of live encoder subprocesses, the
  registered close handlers, the queue of not-yet-delivered close
  events and the pending `setTimeout` restart tasks form a `World`
  on which external events (calls and callbacks) act one at a time,
  mirroring the Node event loop.
-/

namespace Streamer

/-! ## Track sanitizer (streamer.ts lines 47-107), byte level -/

/-- The syncsafe-style size decode of `id3v2Size`:
`(buf[6] << 21) | (buf[7] << 14) | (buf[8] << 7) | buf[9]`.
For byte values (< 256) the JS 32-bit operators never overflow,
so plain `Nat` shift/or coincides with the source. -/
def id3DecodedSize (buf : List Nat) : Nat :=
  ((buf.getD 6 0) <<< 21) ||| ((buf.getD 7 0) <<< 14) ||| ((buf.getD 8 0) <<< 7) ||| (buf.getD 9 0)

/-- `id3v2Size` (streamer.ts lines 47-53): 0 unless the buffer is at
least 10 bytes and starts with the magic `I` `D` `3`; otherwise 10
plus the decoded size. -/
def id3v2Size (buf : List Nat) : Nat :=
  if buf.length < 10 then 0
  else if buf.getD 0 0 = 0x49 ∧ buf.getD 1 0 = 0x44 ∧ buf.getD 2 0 = 0x33 then
    10 + id3DecodedSize buf
  else 0

/-- `hasId3v1Tag` (streamer.ts lines 55-59): a 128-byte trailer whose
first three bytes are `T` `A` `G`. -/
def hasId3v1Tag (buf : List Nat) : Bool :=
  if buf.length < 128 then false
  else
    decide (buf.getD (buf.length - 128) 0 = 0x54) &&
    decide (buf.getD (buf.length - 127) 0 = 0x41) &&
    decide (buf.getD (buf.length - 126) 0 = 0x47)

/-- The two-byte MP3 frame-sync test of `firstMp3FrameOffset`:
`buf[i] === 0xff && (buf[i + 1] & 0xe0) === 0xe0`. -/
def mp3SyncPair (b0 b1 : Nat) : Bool :=
  decide (b0 = 0xff) && decide (b1 &&& 0xe0 = 0xe0)

/-- The scan loop of `firstMp3FrameOffset` (streamer.ts lines 61-68):
index of the first adjacent pair passing `mp3SyncPair`, if any. -/
def firstMp3FrameOffsetAux : List Nat → Option Nat
  | b0 :: b1 :: rest =>
    if mp3SyncPair b0 b1 then some 0
    else (firstMp3FrameOffsetAux (b1 :: rest)).map (· + 1)
  | _ => none

/-- `firstMp3FrameOffset` returns 0 when no sync pair exists. -/
def firstMp3FrameOffset (buf : List Nat) : Nat :=
  (firstMp3FrameOffsetAux buf).getD 0

/-- The byte signature `APETAGEX`. -/
def apeSig : List Nat := [0x41, 0x50, 0x45, 0x54, 0x41, 0x47, 0x45, 0x58]

/-- `Buffer.lastIndexOf(sig)`: offset of the last full occurrence of
`sig`, scanning left to right and keeping the rightmost hit. -/
def lastIndexOfFrom (sig : List Nat) : List Nat → Nat → Option Nat → Option Nat
  | [], _, best => best
  | l@(_ :: rest), i, best =>
    lastIndexOfFrom sig rest (i + 1) (if sig.isPrefixOf l then some i else best)

/-- `buf.lastIndexOf(apeSig)` as an `Option` (JS returns -1 when absent). -/
def lastIndexOfSig (buf sig : List Nat) : Option Nat :=
  lastIndexOfFrom sig buf 0 none

/-- `apeTailOffset` (streamer.ts lines 70-78): the `APETAGEX` footer
offset when it sits within the last 256 bytes, else the length.
JS compares `idx >= buf.length - 256` with signed arithmetic, which is
`buf.length ≤ idx + 256` over `Nat`. -/
def apeTailOffset (buf : List Nat) : Nat :=
  match lastIndexOfSig buf apeSig with
  | some idx => if buf.length ≤ idx + 256 then idx else buf.length
  | none => buf.length

/-- The pure byte-level core of `sanitizeTrack` (streamer.ts lines
89-101): the content written for the cleaned track.  The surrounding
I/O (stat, cache, temp-file naming, falling back to the original path
on read/write errors) does not alter which bytes are produced from a
given input buffer.  `data.subarray(stripFrom, stripTo)` is
`(take stripTo).drop stripFrom`. -/
def sanitizeTrack (buf : List Nat) : List Nat :=
  let stripFrom := max (id3v2Size buf) (firstMp3FrameOffset buf)
  let stripTo := min (if hasId3v1Tag buf then buf.length - 128 else buf.length) (apeTailOffset buf)
  if stripFrom = 0 ∧ stripTo = buf.length then buf
  else if stripTo ≤ stripFrom ∨ stripTo - stripFrom < 1024 then buf
  else (buf.take stripTo).drop stripFrom

/-- A buffer with a valid zero-size leading ID3 tag whose first MP3
frame-sync pair sits one byte after the tag end: header (10 bytes),
one `0x00` byte, the sync pair `0xff 0xe0`, then 1027 filler bytes. -/
def c6Buf : List Nat :=
  [0x49, 0x44, 0x33, 0, 0, 0, 0, 0, 0, 0] ++ [0x00] ++ [0xff, 0xe0] ++ List.replicate 1027 1

/-- A buffer with a valid zero-size leading ID3 tag whose audio data
starts with a frame-sync pair exactly at offset 10. -/
def c6GoodBuf : List Nat :=
  [0x49, 0x44, 0x33, 0, 0, 0, 0, 0, 0, 0] ++ [0xff, 0xe0] ++ List.replicate 1022 1

/-! ## Filter graph totals (streamer.ts lines 206-286)

Only the numeric content of the two graph fragments is embedded: the
filter-text rendering (`toFixed` formatting, label strings) carries no
information the specification claims depend on.  Both builders throw on
an empty duration list, modeled with `Except`. -/

/-- `durations.reduce((sum, d) => sum + d, 0)`. -/
def sumDur (l : List ℚ) : ℚ := l.foldl (· + ·) 0

/-- `buildBackgroundGraph` (streamer.ts lines 206-239): fails on an
empty list, otherwise its `totalDuration` is the plain sum of the
background durations (no crossfade deduction on the video side). -/
def buildBackgroundGraph (durations : List ℚ) : Except String ℚ :=
  if durations.isEmpty then Except.error "No backgrounds to build filter graph"
  else Except.ok (sumDur durations)

/-- `buildAudioGraph` (streamer.ts lines 241-286): fails on an empty
list, otherwise its `totalDuration` is the sum of the track durations
minus `xfade * (count - 1)` when `acrossfade` is used. -/
def buildAudioGraph (durations : List ℚ) (xfade : ℚ) (useAcrossfade : Bool) : Except String ℚ :=
  if durations.isEmpty then Except.error "No tracks to build audio graph"
  else
    Except.ok (sumDur durations - (if useAcrossfade then xfade * ((durations.length - 1 : ℕ) : ℚ) else 0))

/-- The graph-building stage of `runStream` (streamer.ts lines
334-340): build the background graph, then the audio graph, and report
`Math.max(bgGraph.totalDuration, audioGraph.totalDuration)`. -/
def runStreamTotalDuration (bgDurations trackDurations : List ℚ) (xfade : ℚ)
    (useAcrossfade : Bool) : Except String ℚ := do
  let bgTotal ← buildBackgroundGraph bgDurations
  let audioTotal ← buildAudioGraph trackDurations xfade useAcrossfade
  pure (max bgTotal audioTotal)

/-- Following the words of the specification: the video track total is
the sum of the background durations. -/
def specVideoTotal (bgDurations : List ℚ) : ℚ := sumDur bgDurations

/-- Following the words of the specification: the audio track total is
the sum of the track durations minus the crossfade overlap when
crossfade is used. -/
def specAudioTotal (trackDurations : List ℚ) (xfade : ℚ) (useAcrossfade : Bool) : ℚ :=
  sumDur trackDurations - (if useAcrossfade then xfade * ((trackDurations.length - 1 : ℕ) : ℚ) else 0)

/-- Following the words of the specification: the reported program
duration is the minimum of the two independently computed totals. -/
def specMinTotalDuration (bgDurations trackDurations : List ℚ) (xfade : ℚ)
    (useAcrossfade : Bool) : ℚ :=
  min (specVideoTotal bgDurations) (specAudioTotal trackDurations xfade useAcrossfade)

/-! ## Duration probing (streamer.ts lines 187-204) -/

/-- The parse result of the probing tool output after
`parseFloat((res.stdout || '').toString().trim())`: the output can be
missing/empty (`parseFloat` yields `NaN`), otherwise non-finite, or a
finite rational value. -/
inductive ProbeOut where
  | missing
  | nonfinite
  | value (q : ℚ)
deriving DecidableEq

/-- `probeDuration`: throws (models `Except.error`) exactly when the
parsed output is missing, non-finite, or non-positive
(`!Number.isFinite(dur) || dur <= 0`); the error message in the source
names the probed file, abbreviated here. -/
def probeDuration (o : ProbeOut) : Except String ℚ :=
  match o with
  | ProbeOut.missing => Except.error "Could not read duration"
  | ProbeOut.nonfinite => Except.error "Could not read duration"
  | ProbeOut.value q => if q ≤ 0 then Except.error "Could not read duration" else Except.ok q

/-! ## Crossfade clamping (streamer.ts lines 323-324) -/

/-- `Math.min(...durations)` for the non-empty lists reaching it; JS
would yield `Infinity` on an empty spread, a case `runStream` never
feeds into a successful attempt. -/
def mathMin : List ℚ → ℚ
  | [] => 0
  | x :: xs => xs.foldl min x

/-- Line 324: `Math.min(DEFAULT_XFADE, Math.max(0.2, minDur / 2))`. -/
def runStreamXfade (defaultXfade : ℚ) (durations : List ℚ) : ℚ :=
  min defaultXfade (max (1/5) (mathMin durations / 2))

/-! ## The supervisor state machine (streamer.ts lines 288-497)

`StreamState` is the module-level mutable record.  A `World` adds what
the Node runtime carries: which spawned encoder processes are still
alive, the per-process close-handler closures registered by
`runStream`, close events that have occurred but whose handler has not
run yet, and pending `setTimeout` restart tasks.  External stimuli are
`Event`s; each is processed atomically, as Node runs each callback to
completion. -/

/-- One background entry of a request; `none` models a missing
`duration` field (JS `undefined`). -/
structure Background where
  dur : Option ℚ
deriving DecidableEq

/-- One track of a request, carrying what the probing tool will report
for the prepared file. -/
structure Track where
  probe : ProbeOut
deriving DecidableEq

/-- `StartOptions` (streamer.ts lines 15-19); the stream URL plays no
role in the supervisor logic. -/
structure StartOptions where
  backgrounds : List Background
  tracks : List Track
deriving DecidableEq

/-- `StreamState` (streamer.ts lines 7-13): process handle (a pid),
running flag, stored request, failure counter and last failure time. -/
structure StreamSt where
  process : Option Nat
  running : Bool
  lastOpts : Option StartOptions
  consecutiveFailures : Nat
  lastFailureAt : Nat
deriving DecidableEq

/-- The data captured by the closure `proc.on('close', ...)` registered
in `runStream` (lines 413-450): the request and flags of the attempt
plus its computed `useAcrossfade`. -/
structure CloseCtx where
  opts : StartOptions
  preferXfade : Bool
  attemptedFallback : Bool
  useAcrossfade : Bool
deriving DecidableEq

/-- A pending `setTimeout(() => runStream(opts, p, a), delay)` task. -/
structure TimerTask where
  delay : Nat
  opts : StartOptions
  preferXfade : Bool
  attemptedFallback : Bool
deriving DecidableEq

/-- `{ ok, message }` returned by `startStream`/`runStream`. -/
structure RunResult where
  ok : Bool
  message : String
deriving DecidableEq

/-- The whole runtime: module state plus process table, handlers,
undelivered close events `(pid, exit code, killed-by-signal)`, timers,
and a fresh-pid counter. -/
structure World where
  st : StreamSt
  live : List Nat
  handlers : List (Nat × CloseCtx)
  pendingClose : List (Nat × Option Nat × Bool)
  timers : List TimerTask
  nextPid : Nat
deriving DecidableEq

/-- Environment-derived configuration: whether the encoder binary
lists `acrossfade` (capability probe result), `FORCE_ACROSSFADE`, and
`STREAM_XFADE_SEC` (default 2). -/
structure Env where
  acrossfadeSupported : Bool
  forceAcrossfade : Bool
  defaultXfade : ℚ

/-- Line 327: `FORCE_ACROSSFADE || hasFilter('acrossfade')`. -/
def hasAcrossfadeFilter (env : Env) : Bool :=
  env.forceAcrossfade || env.acrossfadeSupported

/-- Line 328: `preferXfade ? hasAcrossfadeFilter : hasAcrossfadeFilter && !attemptedFallback`. -/
def useAcrossfadeOf (env : Env) (preferXfade attemptedFallback : Bool) : Bool :=
  if preferXfade then hasAcrossfadeFilter env
  else hasAcrossfadeFilter env && !attemptedFallback

/-- Line 313: `backgrounds.map((b) => Math.max(0.5, b.duration || 0))`.
A missing duration (`undefined || 0`) and a zero duration (`0 || 0`)
both contribute `0` to the max; `NaN` cannot arise for a `ℚ` value. -/
def effectiveBgDuration (b : Background) : ℚ :=
  max (1/2) (b.dur.getD 0)

/-- Line 317: probe every prepared track in order, aborting at the
first error (a thrown exception aborts the `.map`). -/
def probeAll : List Track → Except String (List ℚ)
  | [] => Except.ok []
  | t :: ts => do
    let d ← probeDuration t.probe
    let ds ← probeAll ts
    pure (d :: ds)

/-- `proc.kill()`: sends a termination signal.  A live process dies
and a close event `(pid, null, 'SIGTERM')` is queued for its handler;
killing an already-dead process does nothing. -/
def killPid (w : World) (p : Nat) : World :=
  if w.live.contains p then
    { w with live := w.live.erase p, pendingClose := w.pendingClose ++ [(p, none, true)] }
  else w

/-- `stopStream` (streamer.ts lines 477-495): remember `wasRunning`,
force the flags and counters down, best-effort kill the held process,
clear the handle, and clear the stored request only when a run was
active. -/
def stopStream (w : World) : World :=
  let wasRunning := w.st.running
  let w1 := { w with st := { w.st with running := false, consecutiveFailures := 0, lastFailureAt := 0 } }
  let w2 :=
    match w1.st.process with
    | some p => killPid w1 p
    | none => w1
  { w2 with st := { w2.st with process := none, lastOpts := if wasRunning then none else w2.st.lastOpts } }

/-- `runStream` (streamer.ts lines 300-475) up to and including the
spawn.  Track preparation (lines 304-310) catches all of its own
errors and degrades, so it never takes the failure return; probing
(315-321) and graph construction (330-344) return `{ok:false}` on
error; otherwise the previous run is stopped (line 346) and a fresh
subprocess is spawned with its close handler registered.  The spawned
arguments and the logged `totalDuration` do not affect supervision. -/
def runStream (env : Env) (w : World) (opts : StartOptions)
    (preferXfade attemptedFallback : Bool) : World × RunResult :=
  let backgroundDurations := opts.backgrounds.map effectiveBgDuration
  match probeAll opts.tracks with
  | Except.error msg => (w, ⟨false, msg⟩)
  | Except.ok durations =>
    let xfade := runStreamXfade env.defaultXfade durations
    let useAcrossfade := useAcrossfadeOf env preferXfade attemptedFallback
    match runStreamTotalDuration backgroundDurations durations xfade useAcrossfade with
    | Except.error msg => (w, ⟨false, msg⟩)
    | Except.ok _totalDuration =>
      let w1 := stopStream w
      let pid := w1.nextPid
      ({ w1 with
          st := { w1.st with process := some pid, running := true },
          live := pid :: w1.live,
          handlers := (pid, ⟨opts, preferXfade, attemptedFallback, useAcrossfade⟩) :: w1.handlers,
          nextPid := pid + 1 },
        ⟨true, "Stream started (looping backgrounds, audio playlist running)"⟩)

/-- `startStream` (streamer.ts lines 288-298): validate, store the
request, then run with `preferXfade = true`, `attemptedFallback = false`. -/
def startStream (env : Env) (w : World) (opts : StartOptions) : World × RunResult :=
  if opts.tracks.isEmpty then (w, ⟨false, "No tracks provided"⟩)
  else if opts.backgrounds.isEmpty then (w, ⟨false, "No backgrounds provided"⟩)
  else runStream env { w with st := { w.st with lastOpts := some opts } } opts true false

/-- `signal || (typeof code === 'number' && code !== 0)`. -/
def nonCleanExit (code : Option Nat) (signaled : Bool) : Bool :=
  signaled || (match code with | some c => decide (c ≠ 0) | none => false)

/-- The body of `proc.on('close', (code, signal) => ...)` (streamer.ts
lines 413-450), acting on the shared module state. -/
def closeHandler (now : Nat) (ctx : CloseCtx) (code : Option Nat) (signaled : Bool)
    (w : World) : World :=
  let wasRunning := w.st.running
  let st1 := { w.st with running := false, process := none }
  let st2 := if code = some 0 then { st1 with consecutiveFailures := 0, lastFailureAt := 0 } else st1
  let w1 := { w with st := st2 }
  if !wasRunning then w1
  else if nonCleanExit code signaled then
    let cf0 := if 30000 < now - st2.lastFailureAt then 0 else st2.consecutiveFailures
    let cf := cf0 + 1
    let st3 := { st2 with consecutiveFailures := cf, lastFailureAt := now }
    if 3 ≤ cf then { w1 with st := { st3 with lastOpts := none } }
    else if ctx.useAcrossfade && !ctx.attemptedFallback then
      { w1 with st := st3, timers := w1.timers ++ [⟨300, ctx.opts, false, true⟩] }
    else
      { w1 with st := st3, timers := w1.timers ++ [⟨500, ctx.opts, false, true⟩] }
  else
    { w1 with timers := w1.timers ++ [⟨200, ctx.opts, ctx.preferXfade, ctx.attemptedFallback⟩] }

/-- Look up the close-handler context registered for a pid. -/
def handlerCtx (hs : List (Nat × CloseCtx)) (p : Nat) : Option CloseCtx :=
  (hs.find? (fun h => h.1 == p)).map (·.2)

/-- Deliver the oldest queued close event at wall-clock time `now`. -/
def deliverClose (now : Nat) (w : World) : World :=
  match w.pendingClose with
  | [] => w
  | (p, code, sig) :: rest =>
    let w1 := { w with pendingClose := rest }
    match handlerCtx w1.handlers p with
    | some ctx => closeHandler now ctx code sig w1
    | none => w1

/-- `isStreaming` (streamer.ts line 497). -/
def isStreaming (w : World) : Bool := w.st.running

/-- External stimuli: an API `start` call, an API `stop` call, a
spontaneous subprocess exit with a status code, delivery of a queued
close event, and expiry of the oldest pending restart timer. -/
inductive Event where
  | startCall (opts : StartOptions)
  | stopCall
  | procExit (pid : Nat) (code : Nat)
  | deliverClose (now : Nat)
  | timerFire

/-- Process one event. -/
def step (env : Env) (w : World) (e : Event) : World :=
  match e with
  | Event.startCall opts => (startStream env w opts).1
  | Event.stopCall => stopStream w
  | Event.procExit p c =>
    if w.live.contains p then
      { w with live := w.live.erase p, pendingClose := w.pendingClose ++ [(p, some c, false)] }
    else w
  | Event.deliverClose now => deliverClose now w
  | Event.timerFire =>
    match w.timers with
    | [] => w
    | t :: rest => (runStream env { w with timers := rest } t.opts t.preferXfade t.attemptedFallback).1

/-- Run a sequence of events. -/
def run (env : Env) (w : World) (es : List Event) : World := es.foldl (step env) w

/-- The initial world: the module-level `state` literal of lines 33-39,
no processes, no callbacks pending. -/
def w0 : World := ⟨⟨none, false, none, 0, 0⟩, [], [], [], [], 0⟩

/-- A configuration with the `acrossfade` filter available and the
default 2-second crossfade. -/
def demoEnv : Env := ⟨true, false, 2⟩

/-- A valid request: one background with a declared duration, one
track whose probe reports 2 seconds. -/
def demoOpts : StartOptions := ⟨[⟨some 1⟩], [⟨ProbeOut.value 2⟩]⟩

/-- Two serialized `start` calls; then the queued close event of the
first (killed) process is delivered, and the restart timer it
scheduled fires. -/
def c2Trace : List Event :=
  [Event.startCall demoOpts, Event.startCall demoOpts,
   Event.deliverClose 1000, Event.timerFire]

/-- A start, a crash of the spawned process, delivery of its close
event (which schedules a restart), a `stop` call, and then the expiry
of the restart timer that `stop` did not cancel. -/
def c3Trace : List Event :=
  [Event.startCall demoOpts, Event.procExit 0 1, Event.deliverClose 1000,
   Event.stopCall, Event.timerFire]

/-- A start followed by three non-clean exits 10 seconds apart (well
inside the 30-second failure-reset window), each close delivered and
each scheduled restart allowed to fire before the next crash. -/
def c4Trace : List Event :=
  [Event.startCall demoOpts,
   Event.procExit 0 1, Event.deliverClose 100000, Event.timerFire,
   Event.procExit 1 1, Event.deliverClose 110000, Event.timerFire,
   Event.procExit 2 1, Event.deliverClose 120000]

/-- A request whose single track yields no probe output. -/
def badOpts : StartOptions := ⟨[⟨some 1⟩], [⟨ProbeOut.missing⟩]⟩

/-- A world in which the spawned process (pid 0) has exited cleanly
while the supervisor is logically running and the close event has not
been delivered yet. -/
def c5World : World :=
  ⟨⟨some 0, true, some demoOpts, 0, 0⟩, [], [(0, ⟨demoOpts, true, false, true⟩)],
    [(0, some 0, false)], [], 1⟩

/-- A running world whose spawned process was started in degraded mode
(crossfade preference off, fallback flag set). -/
def c9World : World :=
  ⟨⟨some 0, true, some demoOpts, 0, 0⟩, [], [(0, ⟨demoOpts, false, true, false⟩)], [], [], 1⟩

/-- The invariant behind the failure counter: any world reachable from
`w0` keeps `consecutiveFailures` at most 1, and a logically running
world has it at 0 (every spawn goes through `stopStream`, which zeroes
it). -/
def failInv (w : World) : Prop :=
  w.st.consecutiveFailures ≤ 1 ∧ (w.st.running = true → w.st.consecutiveFailures = 0)

/-! ## Theorems -/

/-- The scan of `firstMp3FrameOffset` stops at or before any index
carrying a sync pair. -/
theorem firstMp3FrameOffsetAux_le :
    ∀ (l : List Nat) (j : Nat), j + 1 < l.length →
      mp3SyncPair (l.getD j 0) (l.getD (j + 1) 0) = true →
      ∃ k, k ≤ j ∧ firstMp3FrameOffsetAux l = some k := by
  intro l
  induction l with
  | nil => intro j h; simp at h
  | cons b0 tl ih =>
    intro j hlen hsync
    cases tl with
    | nil => simp at hlen
    | cons b1 rest =>
      by_cases hs : mp3SyncPair b0 b1 = true
      · exact ⟨0, Nat.zero_le j, by simp [firstMp3FrameOffsetAux, hs]⟩
      · cases j with
        | zero => simp [List.getD] at hsync; exact absurd hsync hs
        | succ jj =>
          have hlen2 : jj + 1 < (b1 :: rest).length := by
            simp only [List.length_cons] at hlen ⊢; omega
          have hsync2 :
              mp3SyncPair ((b1 :: rest).getD jj 0) ((b1 :: rest).getD (jj + 1) 0) = true := by
            simpa [List.getD_cons_succ] using hsync
          obtain ⟨k, hk, haux⟩ := ih jj hlen2 hsync2
          refine ⟨k + 1, by omega, ?_⟩
          simp [firstMp3FrameOffsetAux, hs, haux]

/-- Bound on `firstMp3FrameOffset` given a sync pair at index `j`. -/
theorem firstMp3FrameOffset_le (l : List Nat) (j : Nat) (hlen : j + 1 < l.length)
    (hsync : mp3SyncPair (l.getD j 0) (l.getD (j + 1) 0) = true) :
    firstMp3FrameOffset l ≤ j := by
  obtain ⟨k, hk, haux⟩ := firstMp3FrameOffsetAux_le l j hlen hsync
  simpa [firstMp3FrameOffset, haux] using hk

/-- Claim C6 (amended): for a buffer with a valid leading ID3v2-style
tag of decoded size `S` (header length `10 + S`), no recognized
trailing tag, a remaining span of at least 1024 bytes, and whose first
MP3 frame-sync pair occurs no later than offset `10 + S`, the sanitized
content is exactly the suffix starting at byte offset `10 + S`. -/
theorem c6_strip_offset (buf : List Nat)
    (h10 : 10 ≤ buf.length)
    (hm0 : buf.getD 0 0 = 0x49) (hm1 : buf.getD 1 0 = 0x44) (hm2 : buf.getD 2 0 = 0x33)
    (hv1 : hasId3v1Tag buf = false)
    (hape : apeTailOffset buf = buf.length)
    (hspan : 1024 ≤ buf.length - (10 + id3DecodedSize buf))
    (hsync : ∃ j, j + 1 < buf.length ∧ j ≤ 10 + id3DecodedSize buf ∧
      mp3SyncPair (buf.getD j 0) (buf.getD (j + 1) 0) = true) :
    sanitizeTrack buf = buf.drop (10 + id3DecodedSize buf) := by
  obtain ⟨j, hj1, hj2, hj3⟩ := hsync
  have hsize : id3v2Size buf = 10 + id3DecodedSize buf := by
    unfold id3v2Size
    rw [if_neg (by omega), if_pos ⟨hm0, hm1, hm2⟩]
  have hfirst : firstMp3FrameOffset buf ≤ 10 + id3DecodedSize buf :=
    le_trans (firstMp3FrameOffset_le buf j hj1 hj3) hj2
  have hFrom : max (id3v2Size buf) (firstMp3FrameOffset buf) = 10 + id3DecodedSize buf := by
    rw [hsize]; exact Nat.max_eq_left hfirst
  have hTo :
      min (if hasId3v1Tag buf then buf.length - 128 else buf.length) (apeTailOffset buf) =
        buf.length := by
    rw [hv1, hape]; simp
  have hlen : 10 + id3DecodedSize buf + 1024 ≤ buf.length := by omega
  simp only [sanitizeTrack, hFrom, hTo]
  rw [if_neg (by omega), if_neg (by omega), List.take_length]

set_option maxRecDepth 100000 in
/-- Claim C6, literal form, refuted: a buffer satisfying every
hypothesis of the claim (valid leading tag of decoded size 0, no
trailing tag, span at least 1024 bytes) whose sanitized content does
not begin at offset `10 + 0`, because the first frame-sync pair sits
at offset 11 and the strip start is the larger of the two offsets. -/
theorem c6_sync_after_tag_counterexample :
    (10 ≤ c6Buf.length ∧ c6Buf.getD 0 0 = 0x49 ∧ c6Buf.getD 1 0 = 0x44 ∧
      c6Buf.getD 2 0 = 0x33 ∧ id3DecodedSize c6Buf = 0 ∧ hasId3v1Tag c6Buf = false ∧
      apeTailOffset c6Buf = c6Buf.length ∧ 1024 ≤ c6Buf.length - (10 + id3DecodedSize c6Buf)) ∧
    sanitizeTrack c6Buf ≠ c6Buf.drop (10 + id3DecodedSize c6Buf) := by decide

set_option maxRecDepth 100000 in
/-- Witness for `c6_strip_offset` on a concrete well-formed buffer. -/
theorem c6_strip_offset_witness : sanitizeTrack c6GoodBuf = c6GoodBuf.drop 10 := by
  have hz : id3DecodedSize c6GoodBuf = 0 := by decide
  have h := c6_strip_offset c6GoodBuf (by decide) (by decide) (by decide) (by decide)
    (by decide) (by decide) (by decide) ⟨10, by decide, by decide, by decide⟩
  rw [hz] at h
  exact h

/-- Reduction of `Except` bind on a success. -/
theorem except_bind_ok {α β ε : Type} (a : α) (f : α → Except ε β) :
    (Except.ok a >>= f) = f a := rfl

/-- Reduction of `Except` bind on a failure. -/
theorem except_bind_error {α β ε : Type} (e : ε) (f : α → Except ε β) :
    ((Except.error e : Except ε α) >>= f) = Except.error e := rfl

/-- Claim C1, literal form, refuted: one background of 1 s and one
track of 2 s with no crossfade.  The graph-building stage reports the
maximum (2) of the two totals, not their minimum (1). -/
theorem c1_min_counterexample :
    runStreamTotalDuration [1] [2] (1/5) false = Except.ok 2 ∧
      specMinTotalDuration [1] [2] (1/5) false = 1 ∧ (2 : ℚ) ≠ 1 := by
  refine ⟨?_, ?_, by norm_num⟩
  · simp only [runStreamTotalDuration, buildBackgroundGraph, buildAudioGraph, sumDur,
      List.isEmpty_cons, Bool.false_eq_true, if_false, except_bind_ok, List.foldl]
    norm_num
    rfl
  · simp only [specMinTotalDuration, specVideoTotal, specAudioTotal, sumDur, List.foldl]
    norm_num

/-- Claim C1 (amended): for non-empty background and track duration
lists, the total program duration reported by the graph-building stage
equals the maximum of the independently computed video total (sum of
background durations) and audio total (sum of track durations minus
the crossfade overlap when crossfade is used). -/
theorem c1_total_duration_max (bgDurations trackDurations : List ℚ) (xfade : ℚ)
    (useAcrossfade : Bool) (hb : bgDurations ≠ []) (ht : trackDurations ≠ []) :
    runStreamTotalDuration bgDurations trackDurations xfade useAcrossfade =
      Except.ok (max (specVideoTotal bgDurations)
        (specAudioTotal trackDurations xfade useAcrossfade)) := by
  simp [runStreamTotalDuration, buildBackgroundGraph, buildAudioGraph, specVideoTotal,
    specAudioTotal, List.isEmpty_iff, hb, ht, except_bind_ok]

/-- Witness for `c1_total_duration_max` at concrete lists. -/
theorem c1_total_duration_max_witness :
    runStreamTotalDuration [1] [2, 3] (1/5) true =
      Except.ok (max (specVideoTotal [1]) (specAudioTotal [2, 3] (1/5) true)) :=
  c1_total_duration_max [1] [2, 3] (1/5) true (by simp) (by simp)

/-- Claim C7: the effective crossfade window is the configured default
clamped by `max(0.2, shortestTrackDuration / 2)`, and in particular
never exceeds the configured default. -/
theorem c7_xfade_clamp (defaultXfade : ℚ) (durations : List ℚ) (h : durations ≠ []) :
    runStreamXfade defaultXfade durations =
      min defaultXfade (max (1/5) ((durations.min?.getD 0) / 2)) ∧
    runStreamXfade defaultXfade durations ≤ defaultXfade := by
  obtain ⟨x, xs, rfl⟩ := List.exists_cons_of_ne_nil h
  exact ⟨rfl, min_le_left _ _⟩

/-- Witness for `c7_xfade_clamp`: durations `[0.3, 5.0]` with default
2 s give an effective crossfade of `0.2` s. -/
theorem c7_xfade_clamp_witness :
    ([(3 : ℚ)/10, 5] ≠ ([] : List ℚ)) ∧ runStreamXfade 2 [3/10, 5] = 1/5 := by
  refine ⟨by simp, ?_⟩
  have h := (c7_xfade_clamp 2 [3/10, 5] (by simp)).1
  rw [h]
  rw [show (([(3 : ℚ)/10, 5].min?).getD 0) = 3/10 by
    rw [show ([(3 : ℚ)/10, 5].min?) = some (min (3/10) 5) from rfl]
    rw [Option.getD_some]
    exact min_eq_left (by norm_num)]
  norm_num

/-- `probeAll` fails as soon as any track of the list fails to probe. -/
theorem probeAll_error_of_mem (ts : List Track)
    (h : ∃ t ∈ ts, ∃ msg, probeDuration t.probe = Except.error msg) :
    ∃ msg, probeAll ts = Except.error msg := by
  induction ts with
  | nil => simp at h
  | cons t0 rest ih =>
    obtain ⟨t, hmem, m, hm⟩ := h
    cases hp : probeDuration t0.probe with
    | error m0 => exact ⟨m0, by simp [probeAll, hp, except_bind_error]⟩
    | ok d =>
      rcases List.mem_cons.1 hmem with rfl | hmem2
      · rw [hp] at hm; cases hm
      · obtain ⟨m1, hm1⟩ := ih ⟨t, hmem2, m, hm⟩
        exact ⟨m1, by simp [probeAll, hp, hm1, except_bind_ok, except_bind_error]⟩

/-- Claim C8: the duration prober errors exactly when the parsed
output is missing, non-finite, or non-positive; and when any track of
a request errors, the run attempt returns `{ok: false}` and leaves the
world untouched (in particular no subprocess is spawned). -/
theorem c8_probe_error_aborts_run :
    (∀ o : ProbeOut, (∃ msg, probeDuration o = Except.error msg) ↔
      (o = ProbeOut.missing ∨ o = ProbeOut.nonfinite ∨
        ∃ q, o = ProbeOut.value q ∧ q ≤ 0)) ∧
    (∀ (env : Env) (w : World) (opts : StartOptions) (pX aF : Bool),
      (∃ t ∈ opts.tracks, ∃ msg, probeDuration t.probe = Except.error msg) →
      (runStream env w opts pX aF).1 = w ∧ (runStream env w opts pX aF).2.ok = false) := by
  constructor
  · intro o
    cases o with
    | missing => simp [probeDuration]
    | nonfinite => simp [probeDuration]
    | value q =>
      by_cases hq : q ≤ 0
      · simp [probeDuration, hq]
      · simp [probeDuration, hq]
  · intro env w opts pX aF h
    obtain ⟨m, hm⟩ := probeAll_error_of_mem opts.tracks h
    rw [runStream, hm]
    exact ⟨rfl, rfl⟩

/-- Witness for `c8_probe_error_aborts_run` on a request whose track
has no probe output. -/
theorem c8_probe_error_aborts_run_witness :
    (runStream demoEnv w0 badOpts true false).1 = w0 ∧
      (runStream demoEnv w0 badOpts true false).2.ok = false :=
  c8_probe_error_aborts_run.2 demoEnv w0 badOpts true false
    ⟨⟨ProbeOut.missing⟩, by decide, "Could not read duration", rfl⟩

/-- Claim C10: every declared background duration is replaced by
`max(0.5, duration || 0)`; a missing, zero, or negative duration
contributes exactly 0.5 s, every effective duration is positive (no
zero-length segment), and the background graph accepts any non-empty
background list regardless of the declared durations. -/
theorem c10_background_floor (b : Background)
    (h : b.dur = none ∨ ∃ q, b.dur = some q ∧ q ≤ 0) :
    effectiveBgDuration b = 1/2 ∧
      (∀ b2 : Background, effectiveBgDuration b2 = max (1/2) (b2.dur.getD 0)) ∧
      (∀ b2 : Background, 0 < effectiveBgDuration b2) ∧
      (∀ bgs : List Background, bgs ≠ [] →
        buildBackgroundGraph (bgs.map effectiveBgDuration) =
          Except.ok (sumDur (bgs.map effectiveBgDuration))) := by
  refine ⟨?_, fun b2 => rfl, fun b2 => ?_, fun bgs hb => ?_⟩
  · rcases h with h | ⟨q, hq, hq0⟩
    · simp [effectiveBgDuration, h]
    · simp only [effectiveBgDuration, hq, Option.getD_some]
      exact max_eq_left (le_trans hq0 (by norm_num))
  · exact lt_of_lt_of_le (by norm_num) (le_max_left _ _)
  · simp [buildBackgroundGraph, List.isEmpty_iff, hb]

/-- Witness for `c10_background_floor` at a negative declared duration. -/
theorem c10_background_floor_witness : effectiveBgDuration ⟨some (-1)⟩ = 1/2 :=
  (c10_background_floor ⟨some (-1)⟩ (Or.inr ⟨-1, rfl, by norm_num⟩)).1

/-- `stopStream` does not touch the handler table. -/
theorem stopStream_handlers (w : World) : (stopStream w).handlers = w.handlers := by
  simp only [stopStream, killPid]
  cases w.st.process
  · rfl
  · dsimp only
    split <;> rfl

/-- `stopStream` zeroes the consecutive-failure counter. -/
theorem stopStream_consecutiveFailures (w : World) :
    (stopStream w).st.consecutiveFailures = 0 := by
  simp only [stopStream, killPid]
  cases w.st.process
  · rfl
  · dsimp only
    split <;> rfl

/-- `stopStream` leaves the supervisor not running. -/
theorem stopStream_running (w : World) : (stopStream w).st.running = false := by
  simp only [stopStream, killPid]
  cases w.st.process
  · rfl
  · dsimp only
    split <;> rfl

/-- Claim C5: delivering a clean close event (status 0, no signal)
while the supervisor is logically running resets the failure counter
and timestamp to zero and appends exactly one restart task, carrying
the very request and flags of the attempt that exited; no subprocess
is spawned or killed by the handler itself. -/
theorem c5_clean_exit_schedules_identical_restart
    (now : Nat) (w : World) (p : Nat) (ctx : CloseCtx)
    (rest : List (Nat × Option Nat × Bool))
    (hq : w.pendingClose = (p, some 0, false) :: rest)
    (hh : handlerCtx w.handlers p = some ctx)
    (hr : w.st.running = true) :
    (deliverClose now w).st.consecutiveFailures = 0 ∧
      (deliverClose now w).st.lastFailureAt = 0 ∧
      (deliverClose now w).timers =
        w.timers ++ [⟨200, ctx.opts, ctx.preferXfade, ctx.attemptedFallback⟩] ∧
      (deliverClose now w).live = w.live ∧
      (deliverClose now w).nextPid = w.nextPid ∧
      (deliverClose now w).st.running = false := by
  simp only [deliverClose, hq, hh]
  simp [closeHandler, hr, nonCleanExit]

/-- Witness for `c5_clean_exit_schedules_identical_restart` on a
concrete running world with a pending clean close event. -/
theorem c5_clean_exit_witness :
    (deliverClose 500 c5World).st.consecutiveFailures = 0 ∧
      (deliverClose 500 c5World).st.lastFailureAt = 0 ∧
      (deliverClose 500 c5World).timers =
        c5World.timers ++ [⟨200, demoOpts, true, false⟩] ∧
      (deliverClose 500 c5World).live = c5World.live ∧
      (deliverClose 500 c5World).nextPid = c5World.nextPid ∧
      (deliverClose 500 c5World).st.running = false :=
  c5_clean_exit_schedules_identical_restart 500 c5World 0 ⟨demoOpts, true, false, true⟩ []
    rfl rfl rfl

/-- Claim C9: (1) a non-clean close only ever schedules restart tasks
with the crossfade preference disabled and the fallback flag set, on
both the degrade path and the generic path; (2) an attempt run with
those flags computes `useAcrossfade = false`, whatever the capability
environment; (3) every close handler such an attempt registers carries
the degraded flags again, so later clean-exit restarts stay degraded
until a fresh manual start. -/
theorem c9_degraded_restarts :
    (∀ (now : Nat) (ctx : CloseCtx) (code : Option Nat) (sig : Bool) (w : World),
      nonCleanExit code sig = true →
      ∀ t ∈ (closeHandler now ctx code sig w).timers,
        t ∈ w.timers ∨
          (t.preferXfade = false ∧ t.attemptedFallback = true ∧ t.opts = ctx.opts)) ∧
    (∀ env : Env, useAcrossfadeOf env false true = false) ∧
    (∀ (env : Env) (w : World) (opts : StartOptions) (pr : Nat × CloseCtx),
      pr ∈ (runStream env w opts false true).1.handlers →
      pr ∈ w.handlers ∨
        (pr.2.preferXfade = false ∧ pr.2.attemptedFallback = true ∧
          pr.2.useAcrossfade = false)) := by
  refine ⟨?_, ?_, ?_⟩
  · intro now ctx code sig w hnc t ht
    cases hw : w.st.running with
    | false => simp only [closeHandler, hw] at ht; simp at ht; exact Or.inl ht
    | true =>
      simp only [closeHandler, hw, hnc] at ht
      simp only [Bool.not_true, Bool.false_eq_true, if_false, if_true] at ht
      repeat' split at ht
      all_goals simp only [List.mem_append, List.mem_singleton] at ht
      all_goals
        first
        | exact Or.inl ht
        | (rcases ht with ht | rfl
           exacts [Or.inl ht, Or.inr ⟨rfl, rfl, rfl⟩])
  · intro env; simp [useAcrossfadeOf]
  · intro env w opts pr hpr
    cases hp : probeAll opts.tracks with
    | error m => simp only [runStream, hp] at hpr; exact Or.inl hpr
    | ok ds =>
      simp only [runStream, hp] at hpr
      split at hpr
      · exact Or.inl hpr
      · simp only [stopStream_handlers, List.mem_cons] at hpr
        rcases hpr with rfl | hpr
        · exact Or.inr ⟨rfl, rfl, by simp [useAcrossfadeOf]⟩
        · exact Or.inl hpr

/-- Witness for `c9_degraded_restarts`: a crash of a degraded attempt
schedules only a degraded restart task. -/
theorem c9_degraded_restarts_witness :
    (⟨500, demoOpts, false, true⟩ : TimerTask) ∈ c9World.timers ∨
      ((⟨500, demoOpts, false, true⟩ : TimerTask).preferXfade = false ∧
        (⟨500, demoOpts, false, true⟩ : TimerTask).attemptedFallback = true ∧
        (⟨500, demoOpts, false, true⟩ : TimerTask).opts =
          (⟨demoOpts, false, true, false⟩ : CloseCtx).opts) :=
  c9_degraded_restarts.1 1000 ⟨demoOpts, false, true, false⟩ (some 1) false c9World
    (by decide) ⟨500, demoOpts, false, true⟩ (by decide)

/-- Claim C2, behavior at the failing input: two serialized `start`
calls leave a single live subprocess (pid 1, the first one was killed
before the second spawn); but once the killed process close event is
delivered, its handler clears the handle of the live process and
schedules a restart, and when that timer fires the spawned pid 2 joins
the still-live pid 1 — two concurrent encoder subprocesses. -/
theorem c2_two_live_subprocesses :
    (run demoEnv w0 (c2Trace.take 2)).live = [1] ∧
      (run demoEnv w0 c2Trace).live = [2, 1] ∧
      (run demoEnv w0 c2Trace).st.process = some 2 := by decide

/-- Claim C3, behavior at the failing input: after a crash schedules a
restart, a `stop` call leaves the supervisor idle but the pending
timer survives it; when the timer fires the stream is running again
with a fresh subprocess, even though `stop` has returned. -/
theorem c3_restart_fires_after_stop :
    isStreaming (run demoEnv w0 (c3Trace.take 4)) = false ∧
      (run demoEnv w0 (c3Trace.take 4)).timers = [⟨300, demoOpts, false, true⟩] ∧
      isStreaming (run demoEnv w0 c3Trace) = true ∧
      (run demoEnv w0 c3Trace).live = [1] := by decide

/-- Every successful `runStream` leaves a freshly zeroed failure
counter (its spawn goes through `stopStream`), and a failed one leaves
the world untouched; so `runStream` preserves `failInv`. -/
theorem runStream_failInv (env : Env) (w : World) (opts : StartOptions) (pX aF : Bool)
    (h : failInv w) : failInv ((runStream env w opts pX aF).1) := by
  cases hp : probeAll opts.tracks with
  | error m => simpa [runStream, hp] using h
  | ok ds =>
    simp only [runStream, hp]
    split
    · exact h
    · exact ⟨by simp [stopStream_consecutiveFailures], fun _ => by
        simp [stopStream_consecutiveFailures]⟩

/-- The close handler preserves `failInv`: from a running world the
counter is 0 on entry, so any failure path sets it to exactly 1. -/
theorem closeHandler_failInv (now : Nat) (ctx : CloseCtx) (code : Option Nat) (sig : Bool)
    (w : World) (h : failInv w) : failInv (closeHandler now ctx code sig w) := by
  obtain ⟨h1, h2⟩ := h
  cases hw : w.st.running with
  | false =>
    simp only [closeHandler, hw, failInv]
    split_ifs <;> simp_all
  | true =>
    have hcf : w.st.consecutiveFailures = 0 := h2 hw
    simp only [closeHandler, hw, failInv]
    split_ifs <;> simp_all

/-- Every event preserves `failInv`. -/
theorem step_failInv (env : Env) (w : World) (e : Event) (h : failInv w) :
    failInv (step env w e) := by
  cases e with
  | startCall opts =>
    simp only [step, startStream]
    split_ifs
    · exact h
    · exact h
    · exact runStream_failInv env _ opts true false h
  | stopCall =>
    refine ⟨?_, fun _ => ?_⟩ <;> simp [step, stopStream_consecutiveFailures]
  | procExit p c =>
    simp only [step]
    split
    · exact h
    · exact h
  | deliverClose now =>
    simp only [step, deliverClose]
    split
    · exact h
    · split
      · exact closeHandler_failInv _ _ _ _ _ h
      · exact h
  | timerFire =>
    simp only [step]
    split
    · exact h
    · exact runStream_failInv _ _ _ _ _ h

/-- `failInv` holds along every event sequence. -/
theorem run_failInv (env : Env) (es : List Event) (w : World) (h : failInv w) :
    failInv (run env w es) := by
  induction es generalizing w with
  | nil => exact h
  | cons e rest ih => exact ih (step env w e) (step_failInv env w e h)

/-- Claim C4, behavior at the failing input, plus the reason: after
three non-clean exits well inside the reset window the supervisor has
another restart scheduled, the stored request still present and the
counter at 1 — the circuit breaker did not trip, because every restart
re-enters `runStream`, whose `stopStream` call zeroes the counter, so
along any event sequence from the initial world the counter never
exceeds 1 and the `MAX_CONSECUTIVE_FAILURES` threshold of 3 is
unreachable. -/
theorem c4_breaker_never_trips :
    ((run demoEnv w0 c4Trace).timers = [⟨500, demoOpts, false, true⟩] ∧
      (run demoEnv w0 c4Trace).st.consecutiveFailures = 1 ∧
      (run demoEnv w0 c4Trace).st.lastOpts = some demoOpts ∧
      isStreaming (run demoEnv w0 c4Trace) = false) ∧
    (∀ (env : Env) (es : List Event), (run env w0 es).st.consecutiveFailures ≤ 1) := by
  constructor
  · decide
  · intro env es
    exact (run_failInv env es w0 ⟨Nat.zero_le 1, fun _ => rfl⟩).1

end Streamer

